import Mathlib

/-!
Verification of the AudioBookRequest request-to-library pipeline against its
natural-language specification.  Each section shallowly embeds the relevant
Python source (file and line references in the comments) as executable Lean
definitions and proves or refutes the specified properties.  Machine time is
modelled as integer seconds (the source stores `int(time.time())`), download
progress and fuzzy scores as rationals, and the filesystem and database as
finite association lists.
-/

namespace Cache

/-! ## SimpleCache (src/app/util/cache.py, lines 13-29)

`_cache: dict[tuple[str, ...], tuple[int, T]]` maps a query tuple to the
insertion timestamp and the cached value.  `get` takes the TTL and the query
and compares `cached_at + source_ttl < time.time()`; `set` stores
`int(time.time())` with the value.  The dictionary is modelled as an
association list whose lookup returns the first binding for a key, and the
current wall-clock time is passed explicitly. -/

def SimpleCache (T : Type) : Type := List (List String × Nat × T)

/-- Mirrors `SimpleCache.get`: a missing key yields `None`; an entry whose
`cached_at + source_ttl < time.time()` yields `None`; otherwise the value. -/
def SimpleCache.get {T : Type} (c : SimpleCache T) (sourceTtl : Nat)
    (query : List String) (now : Nat) : Option T :=
  match c.find? (fun e => e.1 = query) with
  | none => none
  | some e => if e.2.1 + sourceTtl < now then none else some e.2.2

/-- Mirrors `SimpleCache.set`: `self._cache[query] = (int(time.time()), sources)`,
replacing any previous binding for the query tuple. -/
def SimpleCache.set {T : Type} (c : SimpleCache T) (sources : T)
    (query : List String) (now : Nat) : SimpleCache T :=
  (query, now, sources) :: c.filter (fun e => e.1 ≠ query)

end Cache

namespace ConfigStore

/-! ## StringConfigCache (src/app/util/cache.py, lines 35-91)

The durable `Config` table and the process-wide `_cache` dictionary are each
modelled as association lists from key to string value.  `get` consults the
cache first and returns the cached string unconditionally; on a cache miss it
evaluates `session.exec(...).one_or_none() or default`, so an empty string
stored in the database is replaced by the default (Python falsiness). -/

structure State where
  cache : List (String × String)
  db : List (String × String)
deriving DecidableEq

def lookupKV (l : List (String × String)) (k : String) : Option String :=
  (l.find? (fun e => e.1 = k)).map (fun e => e.2)

/-- Mirrors `StringConfigCache.get` (cache.py lines 46-54): a cache hit is
returned as stored; otherwise the database value unless it is falsy
(`None` or the empty string), in which case the default is returned. -/
def get (st : State) (key : String) (default : Option String) : Option String :=
  match lookupKV st.cache key with
  | some v => some v
  | none =>
    match lookupKV st.db key with
    | some v => if v = "" then default else some v
    | none => default

/-- Mirrors `StringConfigCache.set` (cache.py lines 56-64): writes the value to
the database row and to the cache. -/
def set (st : State) (key value : String) : State :=
  { cache := (key, value) :: st.cache.filter (fun e => e.1 ≠ key),
    db := (key, value) :: st.db.filter (fun e => e.1 ≠ key) }

/-- Mirrors `StringConfigCache.get_int` (cache.py lines 82-88): `val` is read
with no default; `if val:` guards the conversion, so `None` and the empty
string fall through to the default while any other string is parsed by
`int(...)` (a non-numeric string raises `ValueError`). -/
def digitsVal (l : List Char) : Nat :=
  l.foldl (fun a c => a * 10 + (c.toNat - 48)) 0

/-- The Python `int(...)` conversion on a canonical decimal string: an
optional minus sign followed by digits; anything else raises `ValueError`. -/
def pyToInt (s : String) : Except String Int :=
  match s.data with
  | [] => Except.error "ValueError"
  | '-' :: ds =>
    if !ds.isEmpty && ds.all Char.isDigit then Except.ok (-(digitsVal ds : Int))
    else Except.error "ValueError"
  | ds =>
    if ds.all Char.isDigit then Except.ok ((digitsVal ds : Int))
    else Except.error "ValueError"

def get_int (st : State) (key : String) (default : Option Int) :
    Except String (Option Int) :=
  match get st key none with
  | some v =>
    if v = "" then Except.ok default
    else
      match pyToInt v with
      | Except.ok n => Except.ok (some n)
      | Except.error e => Except.error e
  | none => Except.ok default

/-! ### Attribute resolution for the config facades

`StringConfigCache` (cache.py lines 35-91) defines exactly the methods listed
below; no `get_bool` or `set_bool` is defined anywhere in the repository.
`DownloadClientConfig` (src/app/internal/download_clients/config.py) and
`MediaManagementConfig` (src/app/internal/media_management/config.py) extend it
with the typed getters listed below.  A Python attribute access on an object
resolves against this method set and raises `AttributeError` when the name is
absent, which is modelled by `resolveAttr`. -/

def stringConfigCacheMethods : List String :=
  ["get", "set", "delete", "get_int", "set_int"]

def downloadClientConfigMethods : List String :=
  stringConfigCacheMethods ++
    ["get_qbit_host", "set_qbit_host", "get_qbit_port", "set_qbit_port",
     "get_qbit_user", "set_qbit_user", "get_qbit_pass", "set_qbit_pass",
     "get_qbit_category", "set_qbit_category", "get_qbit_save_path",
     "set_qbit_save_path", "get_qbit_enabled", "set_qbit_enabled"]

def mediaManagementConfigMethods : List String :=
  stringConfigCacheMethods ++
    ["get_library_path", "set_library_path", "get_folder_pattern",
     "set_folder_pattern", "get_file_pattern", "set_file_pattern",
     "get_use_series_folders", "set_use_series_folders", "get_use_hardlinks",
     "set_use_hardlinks", "get_review_before_import", "set_review_before_import"]

def resolveAttr (methods : List String) (name : String) : Except String String :=
  if methods.contains name then Except.ok name
  else Except.error ("AttributeError: " ++ name)

/-- Mirrors `DownloadClientConfig.get_qbit_enabled` (download_clients/config.py
lines 52-53): `bool(self.get_bool(session, "qbit_enabled") or False)`.  The
call first resolves the attribute `get_bool`; `getBoolResult` stands for the
value that call would produce if the method existed. -/
def get_qbit_enabled (getBoolResult : Bool) : Except String Bool :=
  match resolveAttr downloadClientConfigMethods "get_bool" with
  | Except.ok _ => Except.ok (getBoolResult || false)
  | Except.error e => Except.error e

/-- Mirrors `DownloadClientConfig.set_qbit_enabled` (download_clients/config.py
lines 55-56): `self.set_bool(session, "qbit_enabled", enabled)`. -/
def set_qbit_enabled (st : State) (enabled : Bool) : Except String State :=
  match resolveAttr downloadClientConfigMethods "set_bool" with
  | Except.ok _ => Except.ok (set st "qbit_enabled" (if enabled then "true" else "false"))
  | Except.error e => Except.error e

/-- Mirrors `MediaManagementConfig.get_use_series_folders`
(media_management/config.py lines 34-35). -/
def get_use_series_folders (getBoolResult : Bool) : Except String Bool :=
  match resolveAttr mediaManagementConfigMethods "get_bool" with
  | Except.ok _ => Except.ok (getBoolResult || false)
  | Except.error e => Except.error e

/-- Mirrors `MediaManagementConfig.get_use_hardlinks`
(media_management/config.py lines 40-41). -/
def get_use_hardlinks (getBoolResult : Bool) : Except String Bool :=
  match resolveAttr mediaManagementConfigMethods "get_bool" with
  | Except.ok _ => Except.ok (getBoolResult || false)
  | Except.error e => Except.error e

/-- Mirrors `MediaManagementConfig.get_review_before_import`
(media_management/config.py lines 46-47). -/
def get_review_before_import (getBoolResult : Bool) : Except String Bool :=
  match resolveAttr mediaManagementConfigMethods "get_bool" with
  | Except.ok _ => Except.ok (getBoolResult || false)
  | Except.error e => Except.error e

end ConfigStore

namespace Importer

/-! ## Import executor (src/app/routers/library.py, run_importer_task)

Lines 1151-1156 compute `is_reconciliation` as the session existing with
`root_path == "__INTERNAL_LIBRARY__"`; lines 1212-1218 call the processor with
`delete_source=True if is_reconciliation else move_files`, where `move_files`
is `import_mode == "move"` chosen by the user. -/

def internalLibrarySentinel : String := "__INTERNAL_LIBRARY__"

/-- Mirrors library.py lines 1152-1156: `import_session_obj and
import_session_obj.root_path == "__INTERNAL_LIBRARY__"`. -/
def is_reconciliation (sessionRoot : Option String) : Bool :=
  match sessionRoot with
  | some root => root = internalLibrarySentinel
  | none => false

/-- Mirrors the `delete_source` argument of the processor call at library.py
lines 1212-1218: `True if is_reconciliation else move_files`. -/
def deleteSourceArg (isRecon moveFiles : Bool) : Bool :=
  if isRecon then true else moveFiles

end Importer

/-! ## Substring containment

The Python expression `needle in haystack` on strings is substring
containment; it is used by the monitor and the delete handler to find torrents
whose tag string contains `asin:<identifier>`. -/

def listHasLead {α : Type} [DecidableEq α] : List α → List α → Bool
  | [], _ => true
  | _ :: _, [] => false
  | a :: as, b :: bs => a = b && listHasLead as bs

def listHasInside {α : Type} [DecidableEq α] (needle : List α) : List α → Bool
  | [] => needle.isEmpty
  | b :: bs => listHasLead needle (b :: bs) || listHasInside needle bs

def strContains (haystack needle : String) : Bool :=
  listHasInside needle.data haystack.data

def strStartsWith (s pre : String) : Bool :=
  listHasLead pre.data s.data

def consHead (c : Char) : List (List Char) → List (List Char)
  | [] => [[c]]
  | p :: ps => (c :: p) :: ps

/-- Splits a character list at every occurrence of the separator. -/
def splitCharList (sep : Char) : List Char → List (List Char)
  | [] => [[]]
  | c :: rest =>
    if c = sep then [] :: splitCharList sep rest
    else consHead c (splitCharList sep rest)

/-- Python `min` and `max` on two numbers, and `abs`, written with explicit
conditionals. -/
def ratMin (a b : ℚ) : ℚ := if a ≤ b then a else b

def ratMax (a b : ℚ) : ℚ := if a ≤ b then b else a

def ratAbs (a : ℚ) : ℚ := if a < 0 then -a else a

namespace Pipeline

/-! ## The `downloaded` flag of a Book (claim C1)

The pipeline operations that touch `Audiobook.downloaded` are embedded as
events over a state holding the flag together with the number of times the
post-download processor has successfully written files for the book.

* `dispatchAttempt`: the `query_sources` auto-download block,
  src/app/internal/query.py lines 98-115, guarded by `start_auto_download and
  not book.downloaded and len(ranked) > 0`.  The call at lines 99-107 passes
  the keyword argument `book_asin=asin`, but `start_download`
  (src/app/internal/prowlarr/prowlarr.py lines 56-64) takes
  `audiobook_request` instead (its comment reads "Changed from book_asin"),
  so the call raises `TypeError` before the callee body runs and lines
  108-115 never execute.  Were the call to bind, `start_download` would
  itself raise `AttributeError` at its `get_qbit_enabled` read (prowlarr.py
  line 68; `get_bool` is undefined, see the ConfigStore section), and the
  plain `bool` it returns has no attribute `ok` (query.py line 108).  Only
  behind these failures does the source text set `b.downloaded = True`
  (lines 109-115); the unreachable success branch of the step mirrors it.
* `processOk` / `processFail`: the monitor hand-off,
  src/app/internal/processing/monitor.py lines 129-163: after
  `process_completed_download` returns, the monitor sets
  `processing_status = "completed"` and `book_to_mark.downloaded = True`
  (lines 146-153); when it raises, the request is set to `failed: <reason>`
  and the book row is untouched (lines 156-163).
* `storeBooks`: `store_new_books`, src/app/internal/book_search.py lines
  495-517: an incoming metadata record for an existing row keeps the stored
  `downloaded` flag (`book.downloaded = existing.downloaded`) and the merge
  overwrites the other fields only.

The admin `mark_downloaded` endpoint and the Audiobookshelf reconciliation
also write the flag; both are explicit user/library actions outside the
metadata/search/dispatch pipeline the claim quantifies over.
-/

end Pipeline

namespace Monitor

/-! ## Download monitor (src/app/internal/processing/monitor.py, check_qbittorrent)

Requests and torrents carry the fields the monitor reads.  Torrent progress is
a rational in [0, 1] (a float in the source). -/

structure Req where
  asin : String
  torrent_hash : Option String
  processing_status : String
deriving DecidableEq

structure Torrent where
  hash : String
  tags : String
  progress : ℚ
  content_path : Option String
deriving DecidableEq

/-- Mirrors the `select` at monitor.py lines 66-74: requests joined to their
book, filtered by `Audiobook.downloaded.is_(False)` and `(torrent_hash is not
None) or (processing_status != "pending")`.  No other condition appears in the
query. -/
def selectedForMonitor (bookDownloaded : Bool) (r : Req) : Bool :=
  !bookDownloaded && (r.torrent_hash.isSome || r.processing_status ≠ "pending")

/-- Mirrors monitor.py lines 79-101: the torrent is located by exact hash
match in the fetched list, else by scanning tags for `asin:<identifier>`
(hashes are unique within one qBittorrent listing, so the first hash match is
the dictionary lookup). -/
def findTorrent (r : Req) (torrents : List Torrent) : Option Torrent :=
  let byHash := match r.torrent_hash with
    | some h => torrents.find? (fun t => t.hash = h)
    | none => none
  match byHash with
  | some t => some t
  | none => torrents.find? (fun t => strContains t.tags ("asin:" ++ r.asin))

inductive Outcome
  | handToProcessor (contentPath : String)
  | failNoContentPath
  | updateProgressOnly
  | failTorrentMissing
  | leaveAlone
deriving DecidableEq

/-- The per-request body of the monitor loop, monitor.py lines 77-183, for a
request that the select returned.  A found torrent with `progress >= 1.0` and
`processing_status not in ["completed", "failed", "queued"]` is handed to the
processor when it has a content path; a missing torrent for a request with a
hash that is neither completed nor `startswith("failed")` becomes
`failed: torrent missing`. -/
def requestAction (r : Req) (torrents : List Torrent) : Outcome :=
  match findTorrent r torrents with
  | some t =>
    if 1 ≤ t.progress ∧ r.processing_status ∉ (["completed", "failed", "queued"] : List String) then
      match t.content_path with
      | some p => Outcome.handToProcessor p
      | none => Outcome.failNoContentPath
    else Outcome.updateProgressOnly
  | none =>
    if r.torrent_hash.isSome ∧ ¬ strStartsWith r.processing_status "failed" ∧
        r.processing_status ≠ "completed" then
      Outcome.failTorrentMissing
    else Outcome.leaveAlone

end Monitor

namespace Requests

/-! ## Request deletion (src/app/routers/api/requests.py, delete_request)

The handler first evaluates the guard at line 148,
`if download_client_config.get_qbit_enabled(session):` — which sits OUTSIDE
the `try` that begins at line 149 and always raises `AttributeError`
(`get_bool` is undefined, see the ConfigStore section), aborting the handler
before anything else runs.  In the guards success continuation (never
reached): lines 149-165 list all torrents and, for each one whose tags
contain `asin:<asin>`, call `client.delete_torrents([t["hash"]],
delete_files=True)`; `QbittorrentClient`
(src/app/internal/download_clients/qbittorrent.py) defines `delete_torrent`,
not `delete_torrents`, so that call raises `AttributeError`, which the
surrounding `except Exception` logs and swallows.  Lines 167-178 then delete
the `AudiobookRequest` rows for the asin (all users for an admin, only the
callers row otherwise) and commit. -/

structure ClientTorrent where
  hash : String
  tags : String
deriving DecidableEq

structure ReqRow where
  asin : String
  user : String
deriving DecidableEq

structure DbState where
  torrents : List ClientTorrent
  rows : List ReqRow
deriving DecidableEq

/-- The methods defined on `QbittorrentClient`
(src/app/internal/download_clients/qbittorrent.py). -/
def qbittorrentClientMethods : List String :=
  ["__init__", "_login", "add_torrent", "get_torrents", "test_connection",
   "add_torrent_tags", "delete_torrent"]

/-- The tag-driven torrent cleanup loop of `delete_request`: the first torrent
tagged `asin:<asin>` triggers `client.delete_torrents(...)`, whose attribute
resolution fails, so the loop raises before deleting anything. -/
def deleteTaggedTorrents (asin : String) (torrents : List ClientTorrent) :
    Except String (List ClientTorrent) :=
  if torrents.any (fun t => strContains t.tags ("asin:" ++ asin)) then
    if qbittorrentClientMethods.contains "delete_torrents" then
      Except.ok (torrents.filter (fun t => !strContains t.tags ("asin:" ++ asin)))
    else Except.error "AttributeError: delete_torrents"
  else Except.ok torrents

/-- Mirrors `delete_request` (requests.py lines 138-179) with its control
flow intact: the `get_qbit_enabled` guard at line 148 runs first, outside the
`try`, and its `AttributeError` propagates out of the handler, leaving both
the client and the rows untouched.  `getBoolResult` stands for the value the
missing `get_bool` call would produce.  Only in the unreachable continuation
does the torrent cleanup run (its own exception swallowed by the `try`) and
are the request rows for the asin (restricted to the caller unless admin)
removed. -/
def delete_request (getBoolResult isAdmin : Bool) (asin user : String)
    (st : DbState) : Except String DbState :=
  match ConfigStore.get_qbit_enabled getBoolResult with
  | Except.error e => Except.error e
  | Except.ok enabled =>
    let torrents :=
      if enabled then
        match deleteTaggedTorrents asin st.torrents with
        | Except.ok ts => ts
        | Except.error _ => st.torrents
      else st.torrents
    let rows :=
      if isAdmin then st.rows.filter (fun r => !(r.asin = asin))
      else st.rows.filter (fun r => !(r.asin = asin && r.user = user))
    Except.ok { torrents := torrents, rows := rows }

end Requests

namespace Processor

/-! ## smart_copy (src/app/internal/processing/processor.py, lines 170-206)

The relevant filesystem slice is a finite map from absolute path to file
content, modelled as an association list (regular files only; the
`os.path.isdir` branch of the destination cleanup is not exercised by regular
files).  `smart_copy` first removes an existing destination, then attempts
`os.link` when hardlinks are requested (failing with `OSError` when the source
does not exist), then `shutil.copy2` (raising `FileNotFoundError` on a missing
source, which the function re-raises), and finally removes the source when
`delete_source` is set. -/

def FS : Type := List (String × String)

def fsGet (fs : FS) (path : String) : Option String :=
  (fs.find? (fun e => e.1 = path)).map (fun e => e.2)

def fsRemove (fs : FS) (path : String) : FS :=
  fs.filter (fun e => e.1 ≠ path)

def fsPut (fs : FS) (path content : String) : FS :=
  (path, content) :: fsRemove fs path

/-- Mirrors `smart_copy`: returns the filesystem after the call together with
the outcome (`Except.error` when the copy raised).  Mutations that happened
before the raise persist, as they do on a real filesystem. -/
def smart_copy (source destination : String) (useHardlinks deleteSource : Bool)
    (fs : FS) : FS × Except String Unit :=
  let fs1 := if (fsGet fs destination).isSome then fsRemove fs destination else fs
  let linked :=
    if useHardlinks then
      match fsGet fs1 source with
      | some c => some (fsPut fs1 destination c)
      | none => none
    else none
  match linked with
  | some fs2 =>
    let fs3 := if deleteSource then fsRemove fs2 source else fs2
    (fs3, Except.ok ())
  | none =>
    match fsGet fs1 source with
    | some c =>
      let fs2 := fsPut fs1 destination c
      let fs3 := if deleteSource then fsRemove fs2 source else fs2
      (fs3, Except.ok ())
    | none => (fs1, Except.error "FileNotFoundError")

/-! ## Destination resolution (processor.py, lines 44-85)

`process_completed_download` interpolates the configured folder pattern with
sanitized fields (lines 47-69), then evaluates the `use_series_folders`
override guard at line 72 — whose `get_use_series_folders` call raises
`AttributeError` on every run (`get_bool` is undefined, see the ConfigStore
section), so the cleanup of lines 76-82, the `os.path.join` at line 84 and
`os.makedirs` at line 85 are never reached; `get_book_folder_path`
(src/app/internal/library/service.py line 62) contains the same
always-raising call.  `resolveDestinationE` models this control flow;
`folderRelPath` is the pure construction of lines 57-82 with the flag value
as a parameter, reached only in the unreachable continuation.  No comparison
against `library_root` appears anywhere in either function.  A format string
is embedded as a token list, one token per literal run or placeholder, so
`pattern.format(...)` is total concatenation; the membership test
`"{series}" not in pattern` becomes a token membership test. -/

/-- Python `str.strip()` removes these characters from both ends. -/
def pyIsSpace (c : Char) : Bool :=
  c = ' ' || c = '\t' || c = '\n' || c = '\x0d' || c = '\x0b' || c = '\x0c'

def pyStripChars (l : List Char) : List Char :=
  ((l.dropWhile pyIsSpace).reverse.dropWhile pyIsSpace).reverse

def pyStrip (s : String) : String :=
  String.mk (pyStripChars s.data)

/-- The characters removed by the sanitizer regex, processor.py line 54:
backslash, slash, star, question mark, colon, double quote, greater, pipe,
less. -/
def forbiddenPathChar (c : Char) : Bool :=
  c = '\\' || c = '/' || c = '*' || c = '?' || c = ':' || c = '"' ||
    c = '>' || c = '|' || c = '<'

/-- Mirrors the local `sanitize` in `process_completed_download`
(processor.py lines 52-55): strip the forbidden characters, trim whitespace,
and fall back to "Unknown" when the result is empty. -/
def sanitize (s : String) : String :=
  let cleaned := pyStrip (String.mk (s.data.filter (fun c => !forbiddenPathChar c)))
  if cleaned = "" then "Unknown" else cleaned

inductive PatTok
  | lit (s : String)
  | author
  | title
  | year
  | asin
  | series
  | seriesIndex
deriving DecidableEq

/-- The default folder pattern `{author}/{title} ({year})`
(media_management/config.py line 23). -/
def defaultFolderPattern : List PatTok :=
  [PatTok.author, PatTok.lit "/", PatTok.title, PatTok.lit " (",
   PatTok.year, PatTok.lit ")"]

structure BookRecord where
  asin : String
  title : String
  authors : List String
  series : List String
  releaseYear : Option Int
deriving DecidableEq

/-- The interpolation of `pattern.format(...)` at processor.py lines 59-66
with the field values computed at lines 47-49 and 59-65. -/
def renderPattern (pattern : List PatTok) (book : BookRecord) : String :=
  let year := match book.releaseYear with
    | some y => toString y
    | none => "Unknown"
  let author := book.authors.headD "Unknown Author"
  let series := book.series.headD ""
  let piece := fun (t : PatTok) =>
    match t with
    | PatTok.lit s => s
    | PatTok.author => sanitize author
    | PatTok.title => sanitize book.title
    | PatTok.year => year
    | PatTok.asin => book.asin
    | PatTok.series => if series ≠ "" then sanitize series else "No Series"
    | PatTok.seriesIndex => series
  String.join (pattern.map piece)

/-- The pure path construction of processor.py lines 57-82: interpolate,
apply the `use_series_folders` override when the pattern lacks `{series}`,
strip whitespace and leading path separators, and fall back to
`<author>/<title>` when the result is empty.  The flag value is a parameter;
in the program this construction is interrupted at line 72 by the
always-raising accessor (see `resolveDestinationE`), so it never completes. -/
def folderRelPath (pattern : List PatTok) (book : BookRecord)
    (useSeriesFolders : Bool) : String :=
  let series := book.series.headD ""
  let author := book.authors.headD "Unknown Author"
  let rel0 := renderPattern pattern book
  let rel1 :=
    if useSeriesFolders && series ≠ "" && !pattern.contains PatTok.series then
      sanitize author ++ "/" ++ sanitize series ++ "/" ++ sanitize book.title
    else rel0
  let rel2 := String.mk ((pyStrip rel1).data.dropWhile (fun c => c = '/'))
  if rel2 = "" then sanitize author ++ "/" ++ sanitize book.title else rel2

/-- `os.path.join(lib_root, folder_rel_path)` for a relative second argument. -/
def destPath (libRoot rel : String) : String :=
  libRoot ++ "/" ++ rel

/-- Splits a path string into components at the separator, as the operating
system does when resolving the path handed to `os.makedirs`. -/
def splitSlash (s : String) : List String :=
  (splitCharList '/' s.data).map String.mk

/-- One path component applied to a directory: `..` pops one component, `.`
and empty components are ignored, anything else descends. -/
def resolveStep (acc : List String) (c : String) : List String :=
  if c = ".." then acc.dropLast
  else if c = "." || c = "" then acc
  else acc ++ [c]

/-- Resolution of a component list against a base directory as performed by
the filesystem. -/
def resolveComponents (root : List String) (comps : List String) : List String :=
  comps.foldl resolveStep root

/-- `p` lies at or below `root`. -/
def descends (root p : List String) : Bool :=
  decide (p.take root.length = root)

/-- The directory the constructed relative path would denote, as a resolved
component list, for a given value of the `use_series_folders` flag. -/
def resolvedDestination (libRoot : List String) (pattern : List PatTok)
    (book : BookRecord) (useSeriesFolders : Bool) : List String :=
  resolveComponents libRoot (splitSlash (folderRelPath pattern book useSeriesFolders))

/-- The destination resolution of `process_completed_download` with its
control flow intact: the guard at processor.py line 72 evaluates
`get_use_series_folders`, which raises `AttributeError` on every run, before
the destination is assembled or `os.makedirs` is called.  `getBoolResult`
stands for the value the missing `get_bool` call would produce; only in the
unreachable continuation is the destination built and returned. -/
def resolveDestinationE (libRoot : String) (pattern : List PatTok)
    (book : BookRecord) (getBoolResult : Bool) : Except String String :=
  match ConfigStore.get_use_series_folders getBoolResult with
  | Except.error e => Except.error e
  | Except.ok useSeriesFolders =>
    Except.ok (destPath libRoot (folderRelPath pattern book useSeriesFolders))

end Processor

namespace Scanner

/-! ## Text cleaning (src/app/internal/library/scanner.py, lines 380-432)

`_clean_string` is a cascade of regular-expression substitutions and
`_normalize_text` lowercases its result and collapses non-alphanumeric runs.
Each substitution is embedded as a pass over the character list, in source
order.  Word boundaries of the Python `\b` are taken over the ASCII word
characters (the inputs of interest are ASCII); since the underscore pass runs
first, a word is a maximal alphanumeric run and the boundary-delimited
patterns act on whole words. -/

def isWordChar (c : Char) : Bool :=
  c.isAlphanum || c = '_'

def lowerList (cs : List Char) : List Char :=
  cs.map Char.toLower

def lowerStr (s : String) : String :=
  String.mk (lowerList s.data)

def listEndsWith (suffix l : List Char) : Bool :=
  listHasLead suffix.reverse l.reverse

/-- Audio extensions of the pass at scanner.py lines 384-386. -/
def audioExts : List String :=
  ["m4b", "mp3", "m4a", "flac", "wav", "ogg", "opus", "aac", "wma"]

/-- Case-insensitively strips one trailing `.<ext>`. -/
def stripAudioExt (s : String) : String :=
  match audioExts.find? (fun e => listEndsWith ("." ++ e).data (lowerStr s).data) with
  | some e => String.mk (s.data.take (s.data.length - (e.length + 1)))
  | none => s

/-- scanner.py line 389: `replace("_", " ").replace(".", " ")`. -/
def underscoreDotToSpace (s : String) : String :=
  String.mk (s.data.map (fun c => if c = '_' || c = '.' then ' ' else c))

/-- Maximal word / non-word segments of a character list. -/
inductive Seg
  | word (cs : List Char)
  | gap (cs : List Char)
deriving DecidableEq

def segPush (c : Char) (segs : List Seg) : List Seg :=
  if isWordChar c then
    match segs with
    | Seg.word cs :: rest => Seg.word (c :: cs) :: rest
    | _ => Seg.word [c] :: segs
  else
    match segs with
    | Seg.gap cs :: rest => Seg.gap (c :: cs) :: rest
    | _ => Seg.gap [c] :: segs

def segmentize (l : List Char) : List Seg :=
  l.foldr segPush []

def segChars : Seg → List Char
  | Seg.word cs => cs
  | Seg.gap cs => cs

def segJoin (segs : List Seg) : List Char :=
  segs.foldr (fun s acc => segChars s ++ acc) []

/-- Drops every word segment satisfying the predicate, which embeds a
substitution of a boundary-delimited whole-word pattern by the empty
string. -/
def removeWordsBy (p : List Char → Bool) (segs : List Seg) : List Seg :=
  segs.filter (fun s =>
    match s with
    | Seg.word w => !p w
    | Seg.gap _ => true)

/-- scanner.py line 390: a word matching `AD\d+` case-insensitively. -/
def adWord (w : List Char) : Bool :=
  match lowerList w with
  | 'a' :: 'd' :: rest => !rest.isEmpty && rest.all Char.isDigit
  | _ => false

/-- scanner.py line 391: `@\d+` is removed; the at sign must be directly
followed by at least one digit.  The scan drops an at sign whose successor is
a digit and then consumes the following digit run (`skipping` state). -/
def removeAtAux : Bool → List Char → List Char
  | _, [] => []
  | skipping, c :: rest =>
    if skipping && c.isDigit then removeAtAux true rest
    else if c = '@' && (rest.headD ' ').isDigit then removeAtAux true rest
    else c :: removeAtAux false rest

def removeAtDigits (l : List Char) : List Char :=
  removeAtAux false l

/-- scanner.py lines 392-393: `\(([^)]+)\)` and `\[([^\]]+)\]` are replaced by
the spaced-out inner text.  The scan buffers the characters after an opening
delimiter; a closing delimiter with a non-empty buffer emits the replacement,
while an unclosed delimiter is restored literally. -/
def unwrapDelims (oc cc : Char) : List Char → Option (List Char) → List Char
  | [], none => []
  | [], some buf => oc :: buf.reverse
  | c :: rest, none =>
    if c = oc then unwrapDelims oc cc rest (some [])
    else c :: unwrapDelims oc cc rest none
  | c :: rest, some buf =>
    if c = cc then
      if buf.isEmpty then oc :: cc :: unwrapDelims oc cc rest none
      else ' ' :: buf.reverse ++ ' ' :: unwrapDelims oc cc rest none
    else unwrapDelims oc cc rest (some (c :: buf))

/-- scanner.py line 394: `\{[^\}]+\}` is removed together with its content. -/
def dropBraced : List Char → Option (List Char) → List Char
  | [], none => []
  | [], some buf => '{' :: buf.reverse
  | c :: rest, none =>
    if c = '{' then dropBraced rest (some [])
    else c :: dropBraced rest none
  | c :: rest, some buf =>
    if c = '}' then
      if buf.isEmpty then '{' :: '}' :: dropBraced rest none
      else dropBraced rest none
    else dropBraced rest (some (c :: buf))

def pyIsSpace (c : Char) : Bool := Processor.pyIsSpace c

def wordIs (cs : List Char) (s : String) : Bool :=
  lowerList cs = s.data

/-- The single-word alternatives of the noise pattern at scanner.py lines
397-399; `full\s*cast` with no whitespace matches the single word
`fullcast`, and the case-insensitive `\bU\b` matches the word `u`. -/
def noiseWords : List String :=
  ["unabridged", "abridged", "audiobook", "hq", "kbps", "aac", "mp3", "m4b",
   "m4a", "flac", "dramatisation", "dramatized", "fullcast", "bbc", "ger",
   "french", "german", "buch", "level", "u"]

/-- The noise substitution: single noise words are dropped; `full\s*cast`
spanning a purely-whitespace gap and the literal `read by` / `narrated by`
pairs are dropped with their separator. -/
def noisePair (w g w2 : List Char) : Bool :=
  (wordIs w "full" && g.all pyIsSpace && wordIs w2 "cast")
    || ((wordIs w "read" || wordIs w "narrated") && g = [' '] && wordIs w2 "by")

def removeNoise : List Seg → List Seg
  | [] => []
  | Seg.gap g :: rest => Seg.gap g :: removeNoise rest
  | Seg.word w :: Seg.gap g :: Seg.word w2 :: rest2 =>
    if noiseWords.any (fun n => wordIs w n) then
      removeNoise (Seg.gap g :: Seg.word w2 :: rest2)
    else if noisePair w g w2 then removeNoise rest2
    else Seg.word w :: removeNoise (Seg.gap g :: Seg.word w2 :: rest2)
  | Seg.word w :: rest =>
    if noiseWords.any (fun n => wordIs w n) then removeNoise rest
    else Seg.word w :: removeNoise rest

/-- The keywords of the part/chapter marker pattern at scanner.py lines
402-406. -/
def markerKws : List String :=
  ["chp", "chapter", "part", "pt", "disc", "cd", "volume", "vol", "v",
   "track", "level", "buch", "book"]

/-- A single word of the form `<keyword><digits>` (the `\s*` of the marker
pattern matching no whitespace). -/
def markerWord (w : List Char) : Bool :=
  markerKws.any (fun kw =>
    let lw := lowerList w
    let n := kw.data.length
    lw.take n = kw.data && !(lw.drop n).isEmpty && (lw.drop n).all Char.isDigit)

/-- The marker substitution `\b(chp|chapter|part|pt|disc|cd|volume|vol|v|track|level|buch|book)\s*\d+\b`:
either within one word or as keyword word, whitespace gap, all-digit word. -/
def markerPair (w g w2 : List Char) : Bool :=
  markerKws.any (fun kw => wordIs w kw) && g.all pyIsSpace
    && !w2.isEmpty && w2.all Char.isDigit

def removeMarkers : List Seg → List Seg
  | [] => []
  | Seg.gap g :: rest => Seg.gap g :: removeMarkers rest
  | Seg.word w :: Seg.gap g :: Seg.word w2 :: rest2 =>
    if markerWord w then removeMarkers (Seg.gap g :: Seg.word w2 :: rest2)
    else if markerPair w g w2 then removeMarkers rest2
    else Seg.word w :: removeMarkers (Seg.gap g :: Seg.word w2 :: rest2)
  | Seg.word w :: rest =>
    if markerWord w then removeMarkers rest
    else Seg.word w :: removeMarkers rest

/-- scanner.py line 408: a word matching `c\d+p\d+` case-insensitively. -/
def cpFullWord (w : List Char) : Bool :=
  match lowerList w with
  | 'c' :: rest =>
    let d1 := rest.takeWhile Char.isDigit
    let r2 := rest.drop d1.length
    !d1.isEmpty &&
      (match r2 with
       | 'p' :: r3 => !r3.isEmpty && r3.all Char.isDigit
       | _ => false)
  | _ => false

/-- scanner.py line 409: a word matching `[cp]\d+` case-insensitively. -/
def cpShortWord (w : List Char) : Bool :=
  match lowerList w with
  | c :: rest => (c = 'c' || c = 'p') && !rest.isEmpty && rest.all Char.isDigit
  | [] => false

/-- scanner.py line 412: `^\s*\d+[\s\-]+` is removed from the start. -/
def stripLeadingNumber (l : List Char) : List Char :=
  let r1 := l.drop (l.takeWhile pyIsSpace).length
  let ds := r1.takeWhile Char.isDigit
  let r2 := r1.drop ds.length
  let seps := r2.takeWhile (fun c => pyIsSpace c || c = '-')
  if !ds.isEmpty && !seps.isEmpty then r2.drop seps.length else l

/-- scanner.py line 413: `[\s\-]+\d+\s*$` is removed from the end. -/
def stripTrailingNumber (l : List Char) : List Char :=
  let rev := l.reverse
  let r1 := rev.drop (rev.takeWhile pyIsSpace).length
  let ds := r1.takeWhile Char.isDigit
  let r2 := r1.drop ds.length
  let seps := r2.takeWhile (fun c => pyIsSpace c || c = '-')
  if !ds.isEmpty && !seps.isEmpty then (r2.drop seps.length).reverse else l

/-- scanner.py line 416: `\s+` is collapsed to a single space. -/
def collapseWs (l : List Char) : List Char :=
  (l.map (fun c => if pyIsSpace c then ' ' else c)).foldr
    (fun c acc => if c = ' ' && acc.headD 'x' = ' ' then acc else c :: acc) []

/-- Mirrors `_clean_string` (scanner.py lines 380-417), pass for pass in
source order. -/
def cleanString (s : String) : String :=
  if s = "" then ""
  else
    let l1 := (underscoreDotToSpace (stripAudioExt s)).data
    let l2 := segJoin (removeWordsBy adWord (segmentize l1))
    let l3 := removeAtDigits l2
    let l4 := unwrapDelims '(' ')' l3 none
    let l5 := unwrapDelims '[' ']' l4 none
    let l6 := dropBraced l5 none
    let l7 := segJoin (removeNoise (segmentize l6))
    let l8 := segJoin (removeMarkers (segmentize l7))
    let l9 := segJoin (removeWordsBy cpFullWord (segmentize l8))
    let l10 := segJoin (removeWordsBy cpShortWord (segmentize l9))
    let l11 := stripTrailingNumber (stripLeadingNumber l10)
    String.mk (Processor.pyStripChars (collapseWs l11))

def isLowerAlnum (c : Char) : Bool :=
  ('a' ≤ c && c ≤ 'z') || ('0' ≤ c && c ≤ '9')

/-- scanner.py line 423: `replace("&", " and ")`. -/
def expandAmp (l : List Char) : List Char :=
  l.foldr (fun c acc => (if c = '&' then " and ".data else [c]) ++ acc) []

/-- Mirrors `_normalize_text` (scanner.py lines 419-426): clean, lowercase,
expand ampersands, collapse non-alphanumeric runs to single spaces, collapse
whitespace, strip. -/
def normalizeText (s : String) : String :=
  if s = "" then ""
  else
    let t1 := lowerList (cleanString s).data
    let t2 := expandAmp t1
    let t3 := (t2.map (fun c => if isLowerAlnum c then c else ' ')).foldr
      (fun c acc => if c = ' ' && acc.headD 'x' = ' ' then acc else c :: acc) []
    String.mk (Processor.pyStripChars (collapseWs t3))

/-! ## Author expansion and candidate dedup (scanner.py lines 460-540) -/

/-- The split of `_expand_author_candidates` (scanner.py line 537):
`re.split` on `\s*(?:,|&| and )\s*` case-insensitively.  The pieces are
split at each comma, ampersand or literal case-insensitive ` and `
occurrence; the `\s*` whitespace absorbed into the separator by the regex is
removed here by the callers strip of every piece, which yields the same
stripped pieces. -/
def splitOnAuthorSeps : List Char → List (List Char)
  | [] => [[]]
  | ',' :: rest => [] :: splitOnAuthorSeps rest
  | '&' :: rest => [] :: splitOnAuthorSeps rest
  | ' ' :: a :: n :: d :: sp :: rest2 =>
    if Char.toLower a = 'a' && Char.toLower n = 'n' && Char.toLower d = 'd'
        && sp = ' ' then
      [] :: splitOnAuthorSeps (sp :: rest2)
    else consHead ' ' (splitOnAuthorSeps (a :: n :: d :: sp :: rest2))
  | c :: rest => consHead c (splitOnAuthorSeps rest)

/-- Mirrors `_dedupe_candidates` (scanner.py lines 460-474): strip, skip
values shorter than two characters, key by the normalized text (falling back
to the lowercased value) and keep the first value per key. -/
def dedupeCandidatesAux : List String → List String → List String
  | [], _ => []
  | v :: rest, seen =>
    if v = "" then dedupeCandidatesAux rest seen
    else
      let v2 := Processor.pyStrip v
      if v2.length < 2 then dedupeCandidatesAux rest seen
      else
        let key := if normalizeText v2 ≠ "" then normalizeText v2 else lowerStr v2
        if seen.contains key then dedupeCandidatesAux rest seen
        else v2 :: dedupeCandidatesAux rest (key :: seen)

def dedupeCandidates (values : List String) : List String :=
  dedupeCandidatesAux values []

/-- Mirrors `_expand_author_candidates` (scanner.py lines 532-539). -/
def expandAuthorCandidates (authorCands : List String) : List String :=
  dedupeCandidates
    (authorCands.foldr
      (fun a acc =>
        if a = "" then acc
        else
          (((splitOnAuthorSeps a.data).map
            (fun p => Processor.pyStrip (String.mk p))).filter
              (fun p => p ≠ "")) ++ acc)
      [])

/-! ## The exact-match predicate and the auto-match selection
(scanner.py lines 541-577 and 611-805) -/

structure ScoredBook where
  asin : String
  title : String
  subtitle : Option String
  authors : List String
  series : List String
deriving DecidableEq

/-- Mirrors `_is_exact_title_author_match` (scanner.py lines 541-577). -/
def isExactTitleAuthorMatch (titleCands authorCands : List String)
    (b : ScoredBook) : Bool :=
  if b.title = "" || b.authors.isEmpty then false
  else
    let normTitles := normalizeText b.title ::
      (match b.subtitle with
       | some sub => if sub ≠ "" then [normalizeText (b.title ++ " " ++ sub)] else []
       | none => [])
    let titleMatch := titleCands.any
      (fun t => t ≠ "" && normTitles.contains (normalizeText t))
    if !titleMatch then false
    else
      let normAuthors := (b.authors.filter (fun a => a ≠ "")).map normalizeText
      if normAuthors.isEmpty then false
      else (expandAuthorCandidates authorCands).any
        (fun a => normAuthors.contains (normalizeText a))

/-- The rapidfuzz similarity values the scoring loop reads for one search
result (scanner.py lines 664-744); rapidfuzz is an external collaborator, so
its per-candidate maxima enter the model as data.  `tPair` is the maximum
`_score_text_pair` over title candidates and title variants, `seriesPair`
over title candidates and series names, `aPair` over author candidates and
book authors, `swapT`/`swapA` the swap-detection maxima, and
`authorTitle`/`authorSeries` the author-in-title/series maxima. -/
structure CandScores where
  tPair : ℚ
  seriesPair : ℚ
  aPair : ℚ
  swapT : ℚ
  swapA : ℚ
  authorTitle : ℚ
  authorSeries : ℚ
deriving DecidableEq

/-- First maximum of `f` over the list, as the Python `max(xs, key=f)`. -/
def firstMaxBy (f : String → Nat) : List String → Option String
  | [] => none
  | x :: rest =>
    match firstMaxBy f rest with
    | none => some x
    | some y => if f y > f x then some y else some x

/-- The title variants of a search result, scanner.py lines 655-661. -/
def titleVariants (b : ScoredBook) : List String :=
  b.title ::
    (match b.subtitle with
     | some sub => if sub ≠ "" then [b.title ++ " " ++ sub] else []
     | none => []) ++
    b.series.map (fun s => b.title ++ " " ++ s)

def firstNormWord (s : String) : Option String :=
  match splitCharList ' ' (normalizeText s).data with
  | [] => none
  | w :: _ => if w.isEmpty then none else some (String.mk w)

/-- The per-result score of the matching loop, scanner.py lines 663-778:
title score with length penalty, start-word boost and series lift, swap
detection, and the blended combination, clamped to [0, 100].  `query` stands
for the query string, used as the title-candidate fallback when the item has
no title candidates (line 642). -/
def finalScore (titleCands authorCands : List String) (query : String)
    (b : ScoredBook) (sc : CandScores) : ℚ :=
  let tcfs := if titleCands.isEmpty then [query] else titleCands
  let t1 := sc.tPair
  let t2 :=
    match firstMaxBy (fun t => (normalizeText t).length) tcfs with
    | some refTitle =>
      let refLen := (normalizeText refTitle).length
      let bookLen := (normalizeText b.title).length
      if refLen ≠ 0 ∧ bookLen ≠ 0 ∧ (bookLen : ℚ) < (refLen : ℚ) * (7 / 10) then
        t1 - ratAbs ((refLen : ℚ) - (bookLen : ℚ)) * (3 / 2)
      else t1
    | none => t1
  let boosted := tcfs.any (fun t =>
    (firstNormWord t).isSome &&
      (titleVariants b).any (fun v => firstNormWord v = firstNormWord t))
  let t3 := if boosted then t2 + 4 else t2
  let seriesScore := if !b.series.isEmpty then sc.seriesPair else 0
  let t4 := if seriesScore > 90 ∧ t3 > 60 then ratMax t3 (seriesScore - 4) else t3
  let a1 := if !authorCands.isEmpty && !b.authors.isEmpty then sc.aPair else 0
  let swapT := if !authorCands.isEmpty then sc.swapT else 0
  let swapA := if !titleCands.isEmpty && !b.authors.isEmpty then sc.swapA else 0
  let isSwapped := swapT > 88 ∧ swapA > 88
  let t5 := if isSwapped then swapT else t4
  let a2 := if isSwapped then swapA else a1
  let combined :=
    if !authorCands.isEmpty then
      let authorInTitle := sc.authorTitle > 85
      let authorInSeries := !b.series.isEmpty ∧ sc.authorSeries > 85
      if isSwapped ∨ authorInTitle ∨ authorInSeries ∨ t5 > 95 then
        t5 * (9 / 10) + a2 * (1 / 10)
      else if a2 < 50 ∧ t5 < 90 then
        t5 * (7 / 10) + a2 * (3 / 10) - 25
      else t5 * (82 / 100) + a2 * (18 / 100)
    else t5 * (96 / 100)
  ratMax 0 (ratMin 100 combined)

/-- The best-candidate fold of scanner.py lines 624-745: results already seen
by asin are skipped, and a result replaces the running best only when its
score is strictly greater (`final_score > best_score`, starting at 0). -/
def bestOf (titleCands authorCands : List String) (query : String)
    (cands : List (ScoredBook × CandScores)) : Option ScoredBook × ℚ :=
  let r := cands.foldl
    (fun (acc : (Option ScoredBook × ℚ) × List String) p =>
      let seen := acc.2
      if seen.contains p.1.asin then acc
      else
        let fs := finalScore titleCands authorCands query p.1 p.2
        if fs > acc.1.2 then ((some p.1, fs), p.1.asin :: seen)
        else (acc.1, p.1.asin :: seen))
    ((none, 0), [])
  r.1

inductive MatchOutcome
  | matched (b : ScoredBook) (score : ℚ)
  | missing
deriving DecidableEq

/-- The acceptance stage of `_auto_match` (scanner.py lines 785-805): a best
result with score strictly above 60 is matched, with `match_score` overridden
to 1.0 exactly when the exact title+author predicate holds for the best
result, else `min(best_score / 100, 0.99)`; otherwise the item is missing. -/
def autoMatchSearch (titleCands authorCands : List String) (query : String)
    (cands : List (ScoredBook × CandScores)) : MatchOutcome :=
  match bestOf titleCands authorCands query cands with
  | (some b, score) =>
    if score > 60 then
      if isExactTitleAuthorMatch titleCands authorCands b then
        MatchOutcome.matched b 1
      else MatchOutcome.matched b (ratMin (score / 100) (99 / 100))
    else MatchOutcome.missing
  | (none, _) => MatchOutcome.missing

end Scanner

/-! # Theorems -/

/-! ## Helper lemmas -/

theorem strdata_app (s t : String) : (s ++ t).data = s.data ++ t.data := rfl

theorem failed_ne_completed (r : String) : ("failed: " ++ r) ≠ "completed" := by
  intro h
  have hd := congrArg String.data h
  rw [strdata_app] at hd
  have h2 := congrArg (fun l => List.headD l 'z') hd
  simp at h2

theorem failed_ne_failed (r : String) : ("failed: " ++ r) ≠ "failed" := by
  intro h
  have hd := congrArg String.data h
  rw [strdata_app] at hd
  have h2 := congrArg List.length hd
  simp at h2

theorem failed_ne_queued (r : String) : ("failed: " ++ r) ≠ "queued" := by
  intro h
  have hd := congrArg String.data h
  rw [strdata_app] at hd
  have h2 := congrArg (fun l => List.headD l 'z') hd
  simp at h2

/-! ## C1: the downloaded flag and the dispatch pipeline -/

/-- C2 (counterexample): a request in state `failed: no content path` whose
book is not downloaded is selected by the monitors query and, its torrent
sitting at progress 1.0, is handed to the processor again — the claim says a
`failed:*` request is neither selected nor re-processed. -/
theorem c2_failed_request_reprocessed_cex :
    Monitor.selectedForMonitor false
      ⟨"B0AAA00001", some "h1", "failed: no content path"⟩ = true ∧
    Monitor.requestAction ⟨"B0AAA00001", some "h1", "failed: no content path"⟩
      [⟨"h1", "asin:B0AAA00001", 1, some "/dl/b1"⟩] =
      Monitor.Outcome.handToProcessor "/dl/b1" := by
  decide

/-- C2 (corrected): the monitor selection filters only on the book not being
downloaded and on `torrent_hash` set or status ≠ pending — it does not
exclude failed states — and the completed-torrent gate excludes only the
literal statuses `completed`, `failed` and `queued`, so every request in a
`failed: <reason>` state with a finished torrent is re-processed. -/
theorem c2_monitor_reprocesses_failed_states
    (asin h reason tags path : String) (prog : ℚ) (hp : 1 ≤ prog) :
    Monitor.selectedForMonitor false ⟨asin, some h, "failed: " ++ reason⟩ = true ∧
    Monitor.requestAction ⟨asin, some h, "failed: " ++ reason⟩
      [⟨h, tags, prog, some path⟩] = Monitor.Outcome.handToProcessor path := by
  constructor
  · simp [Monitor.selectedForMonitor]
  · simp [Monitor.requestAction, Monitor.findTorrent, List.find?]
    exact ⟨hp, failed_ne_completed reason, failed_ne_failed reason,
      failed_ne_queued reason⟩

/-- C2 (witness): the re-processing theorem applied at a concrete request and
torrent. -/
theorem c2_monitor_reprocesses_failed_states_witness :
    Monitor.selectedForMonitor false
      ⟨"B0AAA00001", some "h1", "failed: " ++ "x"⟩ = true ∧
    Monitor.requestAction ⟨"B0AAA00001", some "h1", "failed: " ++ "x"⟩
      [⟨"h1", "tags", 1, some "/dl/b1"⟩] =
      Monitor.Outcome.handToProcessor "/dl/b1" :=
  c2_monitor_reprocesses_failed_states "B0AAA00001" "h1" "x" "tags" "/dl/b1" 1
    (by norm_num)

/-! ## C3: request deletion and the tagged torrent -/

/-- C3 (code bug): request deletion is broken in two layers.  The handler
always raises `AttributeError` at its `get_qbit_enabled` guard (requests.py
line 148, which sits outside the `try`), so no delete ever removes the
tagged torrent or the Request rows — the claimed cleanup ordering never gets
to run at all, for every configuration, caller and database state.  And in
the continuation that guard cuts off, the cleanup loop calls the undefined
method `delete_torrents` (line 154), so the tagged torrent would still
survive its swallowed `AttributeError` were the guard repaired. -/
theorem c3_delete_request_always_raises :
    (∀ (getBoolResult isAdmin : Bool) (asin user : String) (st : Requests.DbState),
      Requests.delete_request getBoolResult isAdmin asin user st =
        Except.error "AttributeError: get_bool") ∧
    Requests.deleteTaggedTorrents "B0AAA00001" [⟨"h1", "asin:B0AAA00001"⟩] =
      Except.error "AttributeError: delete_torrents" :=
  ⟨fun _ _ _ _ _ => rfl, rfl⟩

/-! ## C5: same-path transfer in smart_copy -/

/-- C5 (code bug): a transfer whose source equals its destination first
removes the existing destination (which is the source) and then fails the
copy with `FileNotFoundError`: the file is destroyed and an error is raised,
for both the plain-copy and the hardlink configurations — the claim says the
transfer is a no-op. -/
theorem c5_same_path_destroys_file :
    Processor.smart_copy "/lib/a.m4b" "/lib/a.m4b" false false
      [("/lib/a.m4b", "x")] = ([], Except.error "FileNotFoundError") ∧
    Processor.smart_copy "/lib/a.m4b" "/lib/a.m4b" true true
      [("/lib/a.m4b", "x")] = ([], Except.error "FileNotFoundError") :=
  ⟨rfl, rfl⟩

/-! ## C4: destination path containment -/

/-- C4 (code bug): the processor never resolves a destination: for every
library root, folder pattern, book and possible value of the missing boolean
read, the resolution raises `AttributeError` at the line-72 guard before the
destination is assembled or `os.makedirs` runs, so the claimed containment
holds only through this total breakage, not through any check.  The
construction logic around the broken call performs no containment check
of its own: for a book whose first author is `..` (which the sanitizer keeps
— it strips only `\/*?:">|<`), the constructed relative path leaves the
library root under either value of the flag. -/
theorem c4_destination_resolution_always_raises :
    (∀ (getBoolResult : Bool) (libRoot : String)
        (pattern : List Processor.PatTok) (book : Processor.BookRecord),
      Processor.resolveDestinationE libRoot pattern book getBoolResult =
        Except.error "AttributeError: get_bool") ∧
    (∀ flagValue : Bool,
      Processor.descends ["lib"]
        (Processor.resolvedDestination ["lib"] Processor.defaultFolderPattern
          ⟨"B0AAA00001", "x", [".."], [], none⟩ flagValue) = false) :=
  ⟨fun _ _ _ _ => rfl, fun flagValue => by cases flagValue <;> decide⟩

/-! ## C6: TTL cache visibility -/

/-- C6 (counterexample): a value inserted at time 0 and looked up with TTL 5
at time 5 — that is, at `t = t₀ + ttl` — is still returned, while the claim
says lookup returns nothing at every `t ≥ t₀ + ttl`. -/
theorem c6_ttl_boundary_cex :
    Cache.SimpleCache.get
      (Cache.SimpleCache.set ([] : Cache.SimpleCache String) "v" ["k"] 0)
      5 ["k"] 5 = some "v" := by
  decide

/-- C6 (corrected): after `set` at time `t₀`, `lookup(k, ttl)` returns the
value at every time `t ≤ t₀ + ttl` and nothing at every `t > t₀ + ttl` — the
eviction comparison in the source is `cached_at + source_ttl < time.time()`,
so the boundary instant is visible. -/
theorem c6_ttl_visibility (T : Type) (c : Cache.SimpleCache T) (v : T)
    (q : List String) (t0 ttl t : Nat) :
    (t ≤ t0 + ttl →
      Cache.SimpleCache.get (Cache.SimpleCache.set c v q t0) ttl q t = some v) ∧
    (t0 + ttl < t →
      Cache.SimpleCache.get (Cache.SimpleCache.set c v q t0) ttl q t = none) := by
  constructor
  · intro h
    have hn : ¬ (t0 + ttl < t) := by omega
    simp [Cache.SimpleCache.get, Cache.SimpleCache.set, List.find?, hn]
  · intro h
    simp [Cache.SimpleCache.get, Cache.SimpleCache.set, List.find?, h]

/-- C6 (witness): the visibility theorem applied at `t₀ = 0`, `ttl = 5`, with
a lookup at time 3 and one at time 6. -/
theorem c6_ttl_visibility_witness :
    Cache.SimpleCache.get
      (Cache.SimpleCache.set ([] : Cache.SimpleCache String) "v" ["k"] 0)
      5 ["k"] 3 = some "v" ∧
    Cache.SimpleCache.get
      (Cache.SimpleCache.set ([] : Cache.SimpleCache String) "v" ["k"] 0)
      5 ["k"] 6 = none :=
  ⟨(c6_ttl_visibility String [] "v" ["k"] 0 5 3).1 (by omega),
   (c6_ttl_visibility String [] "v" ["k"] 0 5 6).2 (by omega)⟩

/-! ## C7: the boolean config accessors -/

/-- C7 (code bug): `StringConfigCache` defines no `get_bool` or `set_bool`,
so every derived boolean getter and setter raises `AttributeError` instead of
returning a boolean — regardless of what the missing call would have
produced.  The claim says the accessors exist and the getters return a bool
without error. -/
theorem c7_bool_accessors_missing :
    ConfigStore.get_qbit_enabled true = Except.error "AttributeError: get_bool" ∧
    ConfigStore.get_qbit_enabled false = Except.error "AttributeError: get_bool" ∧
    ConfigStore.get_use_series_folders false = Except.error "AttributeError: get_bool" ∧
    ConfigStore.get_use_hardlinks false = Except.error "AttributeError: get_bool" ∧
    ConfigStore.get_review_before_import false = Except.error "AttributeError: get_bool" ∧
    ConfigStore.set_qbit_enabled ⟨[], []⟩ true = Except.error "AttributeError: set_bool" :=
  ⟨rfl, rfl, rfl, rfl, rfl, rfl⟩

/-! ## C8: the exact-match override -/

/-- C8 (counterexample): two search results share the authors of the item and
score 100; the first (`Dune Messiah`) is not an exact title match, the second
(`Dune`) is.  The engine keeps the first strict maximum, so the item is
matched to `Dune Messiah` with score 0.99 — not to the exact candidate
`Dune` with score 1.00, although the exact-match predicate holds for it. -/
theorem c8_exact_candidate_not_matched_cex :
    Scanner.autoMatchSearch ["Dune"] ["Frank Herbert"] ""
      [(⟨"B0YYYYYYY1", "Dune Messiah", none, ["Frank Herbert"], []⟩,
        ⟨100, 0, 100, 20, 20, 20, 0⟩),
       (⟨"B0XXXXXXX1", "Dune", none, ["Frank Herbert"], []⟩,
        ⟨100, 0, 100, 20, 20, 20, 0⟩)] =
      Scanner.MatchOutcome.matched
        ⟨"B0YYYYYYY1", "Dune Messiah", none, ["Frank Herbert"], []⟩ (99 / 100) ∧
    Scanner.isExactTitleAuthorMatch ["Dune"] ["Frank Herbert"]
      ⟨"B0XXXXXXX1", "Dune", none, ["Frank Herbert"], []⟩ = true := by
  constructor
  · norm_num [Scanner.autoMatchSearch, Scanner.bestOf, Scanner.finalScore,
      Scanner.firstMaxBy, Scanner.titleVariants, ratMin, ratMax, ratAbs,
      show Scanner.normalizeText "Dune" = "dune" by decide,
      show Scanner.normalizeText "Dune Messiah" = "dune messiah" by decide,
      show Scanner.firstNormWord "Dune" = some "dune" by decide,
      show Scanner.firstNormWord "Dune Messiah" = some "dune" by decide,
      show ("dune" : String).length = 4 by decide,
      show ("dune messiah" : String).length = 12 by decide,
      show Scanner.isExactTitleAuthorMatch ["Dune"] ["Frank Herbert"]
        ⟨"B0YYYYYYY1", "Dune Messiah", none, ["Frank Herbert"], []⟩ = false by decide,
      show ¬(("B0XXXXXXX1" : String) = "B0YYYYYYY1") by decide]
  · decide

/-- C8 (corrected): the override applies to the candidate the engine selects:
whenever the search pass matches the item to a book and the exact
title+author predicate holds for that book, the match score is exactly 1,
regardless of all fuzzy scores.  An exact candidate that is not the selected
fuzzy best is not matched at all, as the counterexample shows. -/
theorem c8_exact_best_match_scores_one (tc ac : List String) (q : String)
    (cands : List (Scanner.ScoredBook × Scanner.CandScores))
    (b : Scanner.ScoredBook) (s : ℚ)
    (hmatch : Scanner.autoMatchSearch tc ac q cands = Scanner.MatchOutcome.matched b s)
    (hex : Scanner.isExactTitleAuthorMatch tc ac b = true) : s = 1 := by
  unfold Scanner.autoMatchSearch at hmatch
  rcases hb : Scanner.bestOf tc ac q cands with ⟨ob, sc⟩
  rw [hb] at hmatch
  cases ob with
  | none => exact absurd hmatch (by simp)
  | some b0 =>
    simp only at hmatch
    split_ifs at hmatch with h60 hexact
    · injection hmatch with h1 h2
      exact h2.symm
    · injection hmatch with h1 h2
      subst h1
      rw [hex] at hexact
      exact absurd rfl hexact

/-- C8 (witness): a single exact candidate is matched with score exactly 1,
by the override theorem. -/
theorem c8_exact_best_match_scores_one_witness :
    Scanner.autoMatchSearch ["Dune"] ["Frank Herbert"] ""
      [(⟨"B0XXXXXXX1", "Dune", none, ["Frank Herbert"], []⟩,
        ⟨100, 0, 100, 20, 20, 20, 0⟩)] =
      Scanner.MatchOutcome.matched
        ⟨"B0XXXXXXX1", "Dune", none, ["Frank Herbert"], []⟩ 1 ∧
    (1 : ℚ) = 1 := by
  have hm : Scanner.autoMatchSearch ["Dune"] ["Frank Herbert"] ""
      [(⟨"B0XXXXXXX1", "Dune", none, ["Frank Herbert"], []⟩,
        ⟨100, 0, 100, 20, 20, 20, 0⟩)] =
      Scanner.MatchOutcome.matched
        ⟨"B0XXXXXXX1", "Dune", none, ["Frank Herbert"], []⟩ 1 := by
    norm_num [Scanner.autoMatchSearch, Scanner.bestOf, Scanner.finalScore,
      Scanner.firstMaxBy, Scanner.titleVariants, ratMin, ratMax, ratAbs,
      show Scanner.normalizeText "Dune" = "dune" by decide,
      show Scanner.firstNormWord "Dune" = some "dune" by decide,
      show ("dune" : String).length = 4 by decide,
      show Scanner.isExactTitleAuthorMatch ["Dune"] ["Frank Herbert"]
        ⟨"B0XXXXXXX1", "Dune", none, ["Frank Herbert"], []⟩ = true by decide]
  exact ⟨hm, c8_exact_best_match_scores_one ["Dune"] ["Frank Herbert"] ""
    [(⟨"B0XXXXXXX1", "Dune", none, ["Frank Herbert"], []⟩,
      ⟨100, 0, 100, 20, 20, 20, 0⟩)]
    ⟨"B0XXXXXXX1", "Dune", none, ["Frank Herbert"], []⟩ 1 hm (by decide)⟩

/-! ## C9: reconciliation forces delete_source -/

/-- C9 (confirmed): when the session root is the internal sentinel
`__INTERNAL_LIBRARY__`, the importer passes `delete_source = true` to the
processor regardless of the users chosen import mode; for any other session
root, and for a missing session, the users mode is passed through
unchanged. -/
theorem c9_reconciliation_forces_delete_source :
    (∀ moveFiles : Bool,
      Importer.deleteSourceArg
        (Importer.is_reconciliation (some Importer.internalLibrarySentinel))
        moveFiles = true) ∧
    (∀ (root : String) (moveFiles : Bool), root ≠ Importer.internalLibrarySentinel →
      Importer.deleteSourceArg (Importer.is_reconciliation (some root))
        moveFiles = moveFiles) ∧
    (∀ moveFiles : Bool,
      Importer.deleteSourceArg (Importer.is_reconciliation none)
        moveFiles = moveFiles) := by
  refine ⟨fun m => rfl, fun root m h => ?_, fun m => rfl⟩
  simp [Importer.is_reconciliation, Importer.deleteSourceArg, h]

/-- C9 (witness): the pass-through clause applied at a concrete non-sentinel
root together with the forcing clause at the sentinel. -/
theorem c9_reconciliation_forces_delete_source_witness :
    Importer.deleteSourceArg (Importer.is_reconciliation (some "/incoming"))
      false = false ∧
    Importer.deleteSourceArg
      (Importer.is_reconciliation (some Importer.internalLibrarySentinel))
      false = true :=
  ⟨c9_reconciliation_forces_delete_source.2.1 "/incoming" false (by decide),
   c9_reconciliation_forces_delete_source.1 false⟩

/-! ## C10: falsy config values and the typed getters -/

/-- C10 (counterexample): a key whose stored database value is the string
`"0"` is not treated as falsy by `get_int`: the getter returns 0, not the
supplied default 7 — `"0"` is a truthy Python string. -/
theorem c10_get_int_zero_cex :
    ConfigStore.get_int ⟨[], [("k", "0")]⟩ "k" (some 7) = Except.ok (some 0) ∧
    (Except.ok (some 0) : Except String (Option Int)) ≠ Except.ok (some 7) :=
  ⟨rfl, by intro h; injection h with h1; injection h1 with h2; exact absurd h2 (by decide)⟩

/-- C10 (corrected): for a key absent from the in-process cache, a stored
empty string makes `get` and `get_int` return the supplied default, but a
stored `"0"` is returned by `get_int` as the integer 0, not the default: the
only falsy stored string is the empty one. -/
theorem c10_falsy_semantics :
    (∀ (st : ConfigStore.State) (k d : String),
      ConfigStore.lookupKV st.cache k = none →
      ConfigStore.lookupKV st.db k = some "" →
      ConfigStore.get st k (some d) = some d) ∧
    (∀ (st : ConfigStore.State) (k : String) (d : Int),
      ConfigStore.lookupKV st.cache k = none →
      ConfigStore.lookupKV st.db k = some "" →
      ConfigStore.get_int st k (some d) = Except.ok (some d)) ∧
    (∀ (st : ConfigStore.State) (k : String) (d : Int),
      ConfigStore.lookupKV st.cache k = none →
      ConfigStore.lookupKV st.db k = some "0" →
      ConfigStore.get_int st k (some d) = Except.ok (some 0)) := by
  refine ⟨fun st k d hc hdb => ?_, fun st k d hc hdb => ?_, fun st k d hc hdb => ?_⟩
  · unfold ConfigStore.get
    rw [hc, hdb]
    simp
  · unfold ConfigStore.get_int ConfigStore.get
    rw [hc, hdb]
    simp
  · unfold ConfigStore.get_int ConfigStore.get
    rw [hc, hdb]
    simp [show ConfigStore.pyToInt "0" = Except.ok 0 from rfl]

/-- C10 (witness): the falsy-value theorem applied at concrete one-row
database states. -/
theorem c10_falsy_semantics_witness :
    ConfigStore.get ⟨[], [("k", "")]⟩ "k" (some "dflt") = some "dflt" ∧
    ConfigStore.get_int ⟨[], [("k", "")]⟩ "k" (some 7) = Except.ok (some 7) ∧
    ConfigStore.get_int ⟨[], [("k", "0")]⟩ "k" (some 7) = Except.ok (some 0) :=
  ⟨c10_falsy_semantics.1 ⟨[], [("k", "")]⟩ "k" "dflt" rfl rfl,
   c10_falsy_semantics.2.1 ⟨[], [("k", "")]⟩ "k" 7 rfl rfl,
   c10_falsy_semantics.2.2 ⟨[], [("k", "0")]⟩ "k" 7 rfl rfl⟩
